import Mathlib

/-!
Verification of `scripts/create-relocatable-python.py`.

Paths are modelled as `String`; helpers on `List Char` mirror the Python
string, `pathlib` and `os.path` operations the script uses.  Fallible
operations (the `RuntimeError` raises and the `IndexError` that
`parts.pop(0)` can produce) are modelled with `Except String`.
-/

deriving instance DecidableEq for Except

namespace Scylla

/-- Model of splitting a character list at every `'/'` (as `str.split("/")`
does: empty fields are kept, splitting the empty string gives one empty
field). -/
def splitSlash : List Char → List (List Char)
  | [] => [[]]
  | c :: cs =>
    if c = '/' then [] :: splitSlash cs
    else
      match splitSlash cs with
      | [] => [[c]]
      | w :: ws => (c :: w) :: ws

/-- Model of `pathlib.PurePath(s).parts` for POSIX paths: a root component
`"/"` (or `"//"` for exactly two leading slashes), followed by the
non-empty, non-dot segments. -/
def pureParts (s : List Char) : List (List Char) :=
  if s = [] then []
  else
    let comps := (splitSlash s).filter (fun c => !(c == [] || c == ['.']))
    if ['/', '/'].isPrefixOf s && !(['/', '/', '/'].isPrefixOf s) then
      ['/', '/'] :: comps
    else if ['/'].isPrefixOf s then
      ['/'] :: comps
    else comps

/-- Model of `os.path.basename`: the part after the last `'/'`. -/
def basenameL (l : List Char) : List Char :=
  (l.reverse.takeWhile (fun c => !(c == '/'))).reverse

/-- Model of `os.path.dirname`: the part up to the last `'/'`, with trailing
slashes stripped unless the result consists only of slashes. -/
def dirnameL (l : List Char) : List Char :=
  let tl := l.reverse.takeWhile (fun c => !(c == '/'))
  let head := (l.reverse.drop tl.length).reverse
  if head == [] || head.all (fun c => c == '/') then head
  else (head.reverse.dropWhile (fun c => c == '/')).reverse

/-- Model of `str.startswith`. -/
def startswith (pre s : String) : Bool := pre.data.isPrefixOf s.data

/-- Model of `str.endswith`. -/
def endswith (suf s : String) : Bool := suf.data.isSuffixOf s.data

/-- Model of `os.path.basename` on `String`. -/
def basename (s : String) : String := ⟨basenameL s.data⟩

/-- Model of `os.path.dirname` on `String`. -/
def dirname (s : String) : String := ⟨dirnameL s.data⟩

/-- Model of `str.replace(old, new, 1)`: replace the first occurrence of
`old`, leaving the string unchanged when `old` does not occur. -/
def replaceFirst (old new : List Char) : List Char → List Char
  | [] => if old.isPrefixOf [] then new else []
  | c :: cs =>
    if old.isPrefixOf (c :: cs) then new ++ (c :: cs).drop old.length
    else c :: replaceFirst old new cs

/-- Lines 58-59 of the script: drop a leading `"usr"` segment when present. -/
def stripUsr : List (List Char) → List (List Char)
  | [] => []
  | p :: rest => if p = "usr".data then rest else p :: rest

/-- Lines 53-70 of `should_copy`: the component-wise checks on
`PurePath(f).parts`.  `parts.pop(0)` on an empty list raises `IndexError`;
a first component other than `"/"` raises the not-absolute `RuntimeError`. -/
def classifyParts (f : List Char) : List (List Char) → Except String Bool
  | [] => .error "IndexError: pop from empty list"
  | el :: parts =>
    if el = ['/'] then
      match stripUsr parts with
      | [] => .ok false
      | p :: rest =>
        if p = "lib".data ∨ p = "lib64".data then
          match rest with
          | [] => .ok true
          | q :: _ =>
            if q = "locale".data ∨ q = ".build-id".data then .ok false
            else .ok true
        else .ok false
    else .error (String.mk ("unexpected path: not absolute! ".data ++ f))

/-- Lines 36-70: `should_copy(f)` on the character list of `f`.  The
`RuntimeError` raised for non-absolute paths, and the `IndexError` that
`parts.pop(0)` raises when `PurePath(f).parts` is empty (for instance for
`f = "."`), are modelled as `Except.error`. -/
def should_copyL (f : List Char) : Except String Bool :=
  if f = [] then .ok false
  else if "/usr/bin/python3.".data.isPrefixOf f then
    .ok (!(f.getLast? == some 'm'))
  else if "/lib64/ld-linux".data.isPrefixOf f then
    .ok false
  else classifyParts f (pureParts f)

/-- Lines 36-70: `should_copy` on `String`. -/
def should_copy (f : String) : Except String Bool := should_copyL f.data

/-- Lines 137-142 of `copy_file_to_python_env`: the `lib`/`lib64` rewrite of
an already `usr`-stripped path, or the unexpected-path `RuntimeError` (whose
message mentions the original path `f`). -/
def mapLibTail (f libfile : List Char) : Except String (List Char) :=
  if "/lib/".data.isPrefixOf libfile then
    .ok (replaceFirst "/lib/".data "lib64/".data libfile)
  else if "/lib64/".data.isPrefixOf libfile then
    .ok (replaceFirst "/lib64/".data "lib64/".data libfile)
  else
    .error (String.mk ("unexpected path: don't know what to do with ".data ++ f))

/-- Lines 130-142 of `copy_file_to_python_env`: compute the in-bundle
destination path `libfile` for a non-interpreter source path. -/
def mapLibPathL (f : List Char) : Except String (List Char) :=
  mapLibTail f
    (if "/usr/".data.isPrefixOf f then replaceFirst "/usr/".data "/".data f else f)

/-- Lines 130-142: the destination-path computation on `String`. -/
def mapLibPath (f : String) : Except String String :=
  (mapLibPathL f.data).map String.mk

/-- Stated from the spec (section 4.5) for comparison with `mapLibPath`: a
leading `/usr/` is stripped down to `/`; a path then beginning with `/lib/`
maps to `lib64/` plus the rest unchanged; one beginning with `/lib64/` maps
to `lib64/` plus the rest unchanged; anything else is rejected (`none`). -/
def bundleTailSpec (g : List Char) : Option String :=
  if "/lib/".data.isPrefixOf g then some (String.mk ("lib64/".data ++ g.drop 5))
  else if "/lib64/".data.isPrefixOf g then some (String.mk ("lib64/".data ++ g.drop 7))
  else none

/-- Stated from the spec (section 4.5): the bundle path of a source path, or
`none` for the unexpected-path fatal error. -/
def bundlePathSpec (f : String) : Option String :=
  bundleTailSpec (if "/usr/".data.isPrefixOf f.data then '/' :: f.data.drop 5 else f.data)

/-- Dynamic-linking metadata of an ELF file as seen by the script: the
requested loader (read by `patchelf --print-interpreter`) and the
dynamic-library search path (written by `patchelf --set-rpath`). -/
structure Elf where
  interp : String
  rpath : String
  deriving DecidableEq

/-- The filesystem facts the script consults: `os.path.islink`,
`os.readlink`, `os.path.realpath`, and the ELF metadata of each binary. -/
structure FS where
  islink : String → Bool
  readlink : String → String
  realpath : String → String
  elf : String → Elf

/-- What an archive entry holds: a filesystem path added with `tarfile.add`
(together with its `recursive` flag), a patched temporary copy of a binary,
the generated thunk script, or an explicit symlink member
(`tarfile.SYMTYPE`). -/
inductive Content where
  | addPath (src : String) (recursive : Bool)
  | patchedCopy (e : Elf)
  | thunk
  | symlinkTo (target : String)
  deriving DecidableEq

/-- One member of the output tar archive. -/
structure Entry where
  arcname : String
  content : Content
  deriving DecidableEq

/-- State threaded through archive construction: the entries written so far,
the next fresh `mkstemp` name, and the temporary files currently existing on
disk together with their (patched) contents. -/
structure St where
  ar : List Entry
  nextTemp : Nat
  temps : List (Nat × Elf)
  deriving DecidableEq

/-- One `ar.add`/`ar.addfile` call. -/
def pushEntry (st : St) (a : String) (c : Content) : St :=
  { st with ar := st.ar ++ [⟨a, c⟩] }

/-- How `tarfile` stores an added path in the archive: a path that is a
symlink is stored as a symlink member pointing at its link target; regular
files (including patched temporary copies, which `shutil.copy2` materialises
as regular files) are stored as regular members. -/
inductive TarKind where
  | regular
  | symlinkEnt (target : String)
  deriving DecidableEq

/-- The member kind a `Content` produces in the archive. -/
def storedKind (fs : FS) : Content → TarKind
  | .addPath p _ => if fs.islink p then .symlinkEnt (fs.readlink p) else .regular
  | .patchedCopy _ => .regular
  | .thunk => .regular
  | .symlinkTo t => .symlinkEnt t

/-- Lines 72-85: `fix_binary` copies the binary at `path` to a fresh
`mkstemp` file, patches that copy's search path to `libpath`, and returns
the temp file; the temp file stays on disk.  Returns the new state, the temp
name, and the patched contents. -/
def fix_binary (fs : FS) (st : St) (path libpath : String) : St × Nat × Elf :=
  let patched : Elf := { fs.elf path with rpath := libpath }
  ({ st with
      nextTemp := st.nextTemp + 1,
      temps := st.temps ++ [(st.nextTemp, patched)] },
   st.nextTemp, patched)

/-- Lines 87-98: `fix_python_binary` patches the interpreter binary with
search path `$ORIGIN/../lib64/`, reads the patched copy's requested loader,
archives the loader's real file as `libexec/ld.so`, and archives the patched
binary as `libexec/<basename>.bin`. -/
def fix_python_binary (fs : FS) (st : St) (binpath : String) : St :=
  let pyname := basename binpath
  let r := fix_binary fs st binpath "$ORIGIN/../lib64/"
  let interpreter := r.2.2.interp
  let st2 := pushEntry r.1 "libexec/ld.so" (.addPath (fs.realpath interpreter) true)
  pushEntry st2 ("libexec/" ++ pyname ++ ".bin") (.patchedCopy r.2.2)

/-- Lines 100-102: `fix_dynload` patches a loadable extension with search
path `$ORIGIN/../../` and archives the patched copy at `targetpath`. -/
def fix_dynload (fs : FS) (st : St) (binpath targetpath : String) : St :=
  let r := fix_binary fs st binpath "$ORIGIN/../../"
  pushEntry r.1 targetpath (.patchedCopy r.2.2)

/-- Lines 104-123: `gen_python_thunk` writes the launcher script at
`bin/<pybin>` and the `bin/python3` symlink member. -/
def gen_python_thunk (st : St) (pybin : String) : St :=
  pushEntry (pushEntry st ("bin/" ++ pybin) .thunk) "bin/python3" (.symlinkTo pybin)

/-- Lines 125-155: `copy_file_to_python_env`. -/
def copy_file_to_python_env (fs : FS) (st : St) (f : String) : Except String St :=
  if startswith "/usr/bin/python" f then
    .ok (fix_python_binary fs (gen_python_thunk st (basename f)) f)
  else
    match mapLibPath f with
    | .error e => .error e
    | .ok libfile =>
      if fs.islink f && !(fs.readlink f == basename (fs.readlink f)) then
        .ok (pushEntry st libfile (.addPath (fs.realpath f) true))
      else if endswith "lib-dynload" (dirname f) then
        .ok (fix_dynload fs st f libfile)
      else
        .ok (pushEntry st libfile (.addPath f false))

/-- Lines 162-171: the fixed exclusion list. -/
def too_basic_packages : List String :=
  ["filesystem", "tzdata", "chkconfig", "basesystem", "coreutils",
   "fedora-release", "fedora-repos", "fedora-gpg-keys",
   "glibc-minimal-langpack", "glibc-all-langpacks"]

/-- Lines 157-172: `filter_basic_packages`. -/
def filter_basic_packages (package : String) : Bool :=
  too_basic_packages.any (fun x => x.data.isPrefixOf package.data)

/-- Lines 175-191: `dependencies`, with the lines produced by the
`repoquery` subprocess passed in as `queryOutput`. -/
def dependencies (queryOutput package_list : List String) : List String :=
  (queryOutput.filter (fun x => !(filter_basic_packages x))) ++ package_list

/-! Concrete fixtures used to evaluate the model. -/

/-- The empty initial archive-construction state. -/
def st0 : St := ⟨[], 0, []⟩

/-- A filesystem with no symlinks, identity `realpath`, and a fixed loader in
every binary. -/
def fsPlain : FS :=
  { islink := fun _ => false
    readlink := fun _ => ""
    realpath := fun p => p
    elf := fun _ => ⟨"/lib64/ld-2.31.so", ""⟩ }

/-- A filesystem on which `/usr/lib64/python3.9/lib-dynload/foo.so` is a
directory-traversing symlink (target `../foo.so`) resolving to
`/realfiles/foo.so`. -/
def fsTrav : FS :=
  { islink := fun p => p == "/usr/lib64/python3.9/lib-dynload/foo.so"
    readlink := fun _ => "../foo.so"
    realpath := fun _ => "/realfiles/foo.so"
    elf := fun _ => ⟨"/lib64/ld-2.31.so", ""⟩ }

/-- A filesystem on which `/usr/lib64/python3.9/lib-dynload/baz.so` is a
same-directory symlink (target `baz.so.1`). -/
def fsSame : FS :=
  { islink := fun p => p == "/usr/lib64/python3.9/lib-dynload/baz.so"
    readlink := fun _ => "baz.so.1"
    realpath := fun _ => "/usr/lib64/python3.9/lib-dynload/baz.so.1"
    elf := fun _ => ⟨"/lib64/ld-2.31.so", ""⟩ }

/-- A filesystem on which `/usr/lib64/libbar.so` is a same-directory symlink
(target `libbar.so.1`). -/
def fsLink : FS :=
  { islink := fun p => p == "/usr/lib64/libbar.so"
    readlink := fun _ => "libbar.so.1"
    realpath := fun _ => "/usr/lib64/libbar.so.1"
    elf := fun _ => ⟨"/lib64/ld-2.31.so", ""⟩ }

/-! Helper lemmas. -/

/-- A two-element-or-longer prefix pins the first two characters. -/
theorem isPrefixOf_two {a b : Char} {p l : List Char}
    (h : (a :: b :: p).isPrefixOf l = true) : ∃ t, l = a :: b :: t := by
  rw [List.isPrefixOf_iff_prefix] at h
  obtain ⟨t, ht⟩ := h
  exact ⟨p ++ t, ht.symm⟩

/-- A path starting with a single slash has root component `"/"`. -/
theorem pureParts_head_slash {c : Char} {t : List Char} (h : c ≠ '/') :
    (pureParts ('/' :: c :: t)).head? = some ['/'] := by
  have h2 : (['/', '/'].isPrefixOf ('/' :: c :: t)) = false := by
    simp [List.isPrefixOf]
    intro hc
    exact absurd hc.symm h
  have h3 : (['/'].isPrefixOf ('/' :: c :: t)) = true := by
    simp [List.isPrefixOf]
  simp [pureParts, h2, h3]

/-- Paths matched by the `/usr/bin/python3.` guard have root `"/"`. -/
theorem pyPre_head {l : List Char}
    (h : ("/usr/bin/python3.".data.isPrefixOf l) = true) :
    (pureParts l).head? = some ['/'] := by
  have h2 : (('/' : Char) :: 'u' :: "sr/bin/python3.".data).isPrefixOf l = true := h
  obtain ⟨t, ht⟩ := isPrefixOf_two h2
  subst ht
  exact pureParts_head_slash (by decide)

/-- Paths matched by the `/lib64/ld-linux` guard have root `"/"`. -/
theorem ldPre_head {l : List Char}
    (h : ("/lib64/ld-linux".data.isPrefixOf l) = true) :
    (pureParts l).head? = some ['/'] := by
  have h2 : (('/' : Char) :: 'l' :: "ib64/ld-linux".data).isPrefixOf l = true := h
  obtain ⟨t, ht⟩ := isPrefixOf_two h2
  subst ht
  exact pureParts_head_slash (by decide)

/-- When `old` is a prefix, `replaceFirst` rewrites it in place. -/
theorem replaceFirst_of_pre (old new s : List Char) (h : old.isPrefixOf s = true) :
    replaceFirst old new s = new ++ s.drop old.length := by
  cases s with
  | nil => simp [replaceFirst, h]
  | cons c cs => simp [replaceFirst, h]

/-- Replacing a leading `/usr/` by `/`. -/
theorem replaceFirst_usr {l : List Char} (h : ("/usr/".data.isPrefixOf l) = true) :
    replaceFirst "/usr/".data "/".data l = '/' :: l.drop 5 := by
  rw [replaceFirst_of_pre _ _ _ h]; rfl

/-- Replacing a leading `/lib/` by `lib64/`. -/
theorem replaceFirst_lib {l : List Char} (h : ("/lib/".data.isPrefixOf l) = true) :
    replaceFirst "/lib/".data "lib64/".data l = "lib64/".data ++ l.drop 5 := by
  rw [replaceFirst_of_pre _ _ _ h]; rfl

/-- Replacing a leading `/lib64/` by `lib64/`. -/
theorem replaceFirst_lib64 {l : List Char} (h : ("/lib64/".data.isPrefixOf l) = true) :
    replaceFirst "/lib64/".data "lib64/".data l = "lib64/".data ++ l.drop 7 := by
  rw [replaceFirst_of_pre _ _ _ h]; rfl

/-- The `lib`/`lib64` rewrite agrees with the spec description. -/
theorem mapLibTail_eq (f g : List Char) :
    ((mapLibTail f g).map String.mk).toOption = bundleTailSpec g := by
  unfold mapLibTail bundleTailSpec
  by_cases h : ("/lib/".data.isPrefixOf g) = true
  · rw [if_pos h, if_pos h, replaceFirst_lib h]; rfl
  · rw [if_neg h, if_neg h]
    by_cases h2 : ("/lib64/".data.isPrefixOf g) = true
    · rw [if_pos h2, if_pos h2, replaceFirst_lib64 h2]; rfl
    · rw [if_neg h2, if_neg h2]; rfl

/-! Claim theorems. -/

/-- C1: the path classifier returns false for the empty path and for
`/lib64/ld-linux-x86-64.so.2`; true for `/usr/bin/python3.9` and
`/usr/lib64/python3.9/foo.py`; and false for `/usr/bin/python3.9m` and
`/usr/lib64/locale/foo`. -/
theorem c1_should_copy_examples :
    should_copy "" = .ok false ∧
    should_copy "/lib64/ld-linux-x86-64.so.2" = .ok false ∧
    should_copy "/usr/bin/python3.9" = .ok true ∧
    should_copy "/usr/lib64/python3.9/foo.py" = .ok true ∧
    should_copy "/usr/bin/python3.9m" = .ok false ∧
    should_copy "/usr/lib64/locale/foo" = .ok false :=
  ⟨rfl, rfl, rfl, rfl, rfl, rfl⟩

/-- C2: for every path, the layout mapper's bundle-path computation agrees
with the spec description: a leading `/usr/` prefix is stripped down to `/`;
a path then beginning with `/lib/` maps to `lib64/` plus the rest unchanged;
one beginning with `/lib64/` maps to `lib64/` plus the rest unchanged; any
other remaining prefix is the unexpected-path fatal error (`none`). -/
theorem c2_layout_refines_spec (f : String) :
    (mapLibPath f).toOption = bundlePathSpec f := by
  unfold mapLibPath mapLibPathL bundlePathSpec
  by_cases h1 : ("/usr/".data.isPrefixOf f.data) = true
  · rw [if_pos h1, if_pos h1, replaceFirst_usr h1]
    exact mapLibTail_eq f.data ('/' :: f.data.drop 5)
  · rw [if_neg h1, if_neg h1]
    exact mapLibTail_eq f.data f.data

/-- C9: for every non-empty path whose first component is not `"/"`,
`should_copy` raises instead of returning a boolean. -/
theorem c9_nonabsolute_raises (f : String) (hne : f ≠ "")
    (hroot : (pureParts f.data).head? ≠ some ['/']) :
    ∃ e, should_copy f = .error e := by
  have hd : ¬ (f.data = []) := by
    intro h
    apply hne
    cases f with
    | mk l =>
      simp only at h
      subst h
      rfl
  unfold should_copy should_copyL
  rw [if_neg hd]
  by_cases hpy : ("/usr/bin/python3.".data.isPrefixOf f.data) = true
  · exact absurd (pyPre_head hpy) hroot
  · rw [if_neg hpy]
    by_cases hld : ("/lib64/ld-linux".data.isPrefixOf f.data) = true
    · exact absurd (ldPre_head hld) hroot
    · rw [if_neg hld]
      rcases hpp : pureParts f.data with _ | ⟨el, parts⟩
      · exact ⟨_, rfl⟩
      · have hel : ¬ (el = ['/']) := by
          intro h
          exact hroot (by rw [hpp, h]; rfl)
        simp only [classifyParts, if_neg hel]
        exact ⟨_, rfl⟩

/-- C9 witness: the concrete non-absolute input from the spec. -/
theorem c9_witness :
    ("relative/path" : String) ≠ "" ∧
    (pureParts ("relative/path" : String).data).head? ≠ some ['/'] ∧
    ∃ e, should_copy "relative/path" = .error e :=
  ⟨by decide, by decide,
   c9_nonabsolute_raises "relative/path" (by decide) (by decide)⟩

/-- C10: the bare library roots `/lib`, `/lib64`, `/usr/lib` and
`/usr/lib64` are accepted by `should_copy`, and for each of them the
per-file mapping of the archive builder raises the unexpected-path fatal
error (the prefix rewrite only matches paths with a slash after the
root). -/
theorem c10_bare_roots (fs : FS) (st : St) :
    (should_copy "/lib" = .ok true ∧
      ∃ e, copy_file_to_python_env fs st "/lib" = .error e) ∧
    (should_copy "/lib64" = .ok true ∧
      ∃ e, copy_file_to_python_env fs st "/lib64" = .error e) ∧
    (should_copy "/usr/lib" = .ok true ∧
      ∃ e, copy_file_to_python_env fs st "/usr/lib" = .error e) ∧
    (should_copy "/usr/lib64" = .ok true ∧
      ∃ e, copy_file_to_python_env fs st "/usr/lib64" = .error e) :=
  ⟨⟨rfl, ⟨_, rfl⟩⟩, ⟨rfl, ⟨_, rfl⟩⟩, ⟨rfl, ⟨_, rfl⟩⟩, ⟨rfl, ⟨_, rfl⟩⟩⟩

/-- C3: the relocator patches the interpreter binary's search path to
`$ORIGIN/../lib64/` and a loadable extension's to `$ORIGIN/../../`; for the
interpreter it also reads the requested loader of the binary, resolves it
with `realpath`, stages it at `libexec/ld.so`, and stages the patched
interpreter at `libexec/<basename>.bin`. -/
theorem c3_relocator (fs : FS) (st : St) (binpath targetpath : String) :
    fix_python_binary fs st binpath =
      { st with
        ar := st.ar ++
          [⟨"libexec/ld.so", .addPath (fs.realpath (fs.elf binpath).interp) true⟩,
           ⟨"libexec/" ++ basename binpath ++ ".bin",
            .patchedCopy { fs.elf binpath with rpath := "$ORIGIN/../lib64/" }⟩],
        nextTemp := st.nextTemp + 1,
        temps := st.temps ++
          [(st.nextTemp, { fs.elf binpath with rpath := "$ORIGIN/../lib64/" })] } ∧
    fix_dynload fs st binpath targetpath =
      { st with
        ar := st.ar ++
          [⟨targetpath, .patchedCopy { fs.elf binpath with rpath := "$ORIGIN/../../" }⟩],
        nextTemp := st.nextTemp + 1,
        temps := st.temps ++
          [(st.nextTemp, { fs.elf binpath with rpath := "$ORIGIN/../../" })] } := by
  constructor <;> simp [fix_python_binary, fix_dynload, fix_binary, pushEntry]

/-- C4 (amended): for every selected path under a `lib-dynload` directory
that is not an interpreter-binary path, is not a directory-traversing
symlink, and whose bundle-path normalization succeeds, the mapper chooses
relocate-then-copy: the file is patched with search path `$ORIGIN/../../`
and archived at its normalized bundle path. -/
theorem c4_dynload_relocated (fs : FS) (st : St) (f libfile : String)
    (_hsel : should_copy f = .ok true)
    (hpy : startswith "/usr/bin/python" f = false)
    (hlink : (fs.islink f && !(fs.readlink f == basename (fs.readlink f))) = false)
    (hmap : mapLibPath f = .ok libfile)
    (hdyn : endswith "lib-dynload" (dirname f) = true) :
    copy_file_to_python_env fs st f =
      .ok { st with
            ar := st.ar ++
              [⟨libfile, .patchedCopy { fs.elf f with rpath := "$ORIGIN/../../" }⟩],
            nextTemp := st.nextTemp + 1,
            temps := st.temps ++
              [(st.nextTemp, { fs.elf f with rpath := "$ORIGIN/../../" })] } := by
  unfold copy_file_to_python_env
  rw [hpy, hmap]
  simp only [Bool.false_eq_true, if_false]
  rw [hlink, hdyn]
  simp [fix_dynload, fix_binary, pushEntry]

/-- C4 witness: a regular (non-symlink) extension module is relocated and
archived at its normalized bundle path. -/
theorem c4_witness :
    copy_file_to_python_env fsPlain st0 "/usr/lib64/python3.9/lib-dynload/bar.so" =
      .ok { ar := [⟨"lib64/python3.9/lib-dynload/bar.so",
                   .patchedCopy ⟨"/lib64/ld-2.31.so", "$ORIGIN/../../"⟩⟩],
            nextTemp := 1,
            temps := [(0, ⟨"/lib64/ld-2.31.so", "$ORIGIN/../../"⟩)] } :=
  c4_dynload_relocated fsPlain st0 "/usr/lib64/python3.9/lib-dynload/bar.so"
    "lib64/python3.9/lib-dynload/bar.so" rfl rfl rfl rfl rfl

/-- C4 counterexample: a directory-traversing symlink under `lib-dynload`
satisfies the claim's hypotheses but is copied from its resolved target
without relocation, so the relocate-then-copy strategy is not chosen. -/
theorem c4_counterexample :
    should_copy "/usr/lib64/python3.9/lib-dynload/foo.so" = .ok true ∧
    endswith "lib-dynload" (dirname "/usr/lib64/python3.9/lib-dynload/foo.so") = true ∧
    mapLibPath "/usr/lib64/python3.9/lib-dynload/foo.so" =
      .ok "lib64/python3.9/lib-dynload/foo.so" ∧
    copy_file_to_python_env fsTrav st0 "/usr/lib64/python3.9/lib-dynload/foo.so" =
      .ok (pushEntry st0 "lib64/python3.9/lib-dynload/foo.so"
            (.addPath "/realfiles/foo.so" true)) ∧
    copy_file_to_python_env fsTrav st0 "/usr/lib64/python3.9/lib-dynload/foo.so" ≠
      .ok (fix_dynload fsTrav st0 "/usr/lib64/python3.9/lib-dynload/foo.so"
            "lib64/python3.9/lib-dynload/foo.so") :=
  ⟨rfl, rfl, rfl, rfl, by decide⟩

/-- C5 (amended): for a selected non-interpreter symlink source whose
bundle-path normalization succeeds: a directory-traversing symlink is
resolved with `realpath` and that file is copied as a regular member at the
mapped bundle path; a same-directory symlink is preserved as a symlink
member, provided the path does not lie under a `lib-dynload` directory. -/
theorem c5_symlink_strategy (fs : FS) (st : St) (f libfile : String)
    (hpy : startswith "/usr/bin/python" f = false)
    (hmap : mapLibPath f = .ok libfile)
    (hlink : fs.islink f = true) :
    ((fs.readlink f == basename (fs.readlink f)) = false →
      copy_file_to_python_env fs st f =
        .ok (pushEntry st libfile (.addPath (fs.realpath f) true)) ∧
      (fs.islink (fs.realpath f) = false →
        storedKind fs (.addPath (fs.realpath f) true) = .regular)) ∧
    ((fs.readlink f == basename (fs.readlink f)) = true →
      endswith "lib-dynload" (dirname f) = false →
      copy_file_to_python_env fs st f =
        .ok (pushEntry st libfile (.addPath f false)) ∧
      storedKind fs (.addPath f false) = .symlinkEnt (fs.readlink f)) := by
  constructor
  · intro hsame
    constructor
    · unfold copy_file_to_python_env
      rw [hpy, hmap]
      simp only [Bool.false_eq_true, if_false]
      rw [hlink, hsame]
      simp
    · intro hreal
      simp [storedKind, hreal]
  · intro hsame hdyn
    constructor
    · unfold copy_file_to_python_env
      rw [hpy, hmap]
      simp only [Bool.false_eq_true, if_false]
      rw [hlink, hsame, hdyn]
      simp
    · simp [storedKind, hlink]

/-- C5 witness: an ordinary same-directory symlink under `/usr/lib64`
is preserved as a symlink member at its mapped bundle path. -/
theorem c5_witness :
    copy_file_to_python_env fsLink st0 "/usr/lib64/libbar.so" =
      .ok (pushEntry st0 "lib64/libbar.so" (.addPath "/usr/lib64/libbar.so" false)) ∧
    storedKind fsLink (.addPath "/usr/lib64/libbar.so" false) =
      .symlinkEnt "libbar.so.1" :=
  (c5_symlink_strategy fsLink st0 "/usr/lib64/libbar.so" "lib64/libbar.so"
    rfl rfl rfl).2 rfl rfl

/-- C5 counterexample: a same-directory symlink under `lib-dynload`
satisfies the claim's hypotheses but is patched and archived as a regular
member rather than preserved as a symlink. -/
theorem c5_counterexample :
    should_copy "/usr/lib64/python3.9/lib-dynload/baz.so" = .ok true ∧
    startswith "/usr/bin/python" "/usr/lib64/python3.9/lib-dynload/baz.so" = false ∧
    fsSame.islink "/usr/lib64/python3.9/lib-dynload/baz.so" = true ∧
    (fsSame.readlink "/usr/lib64/python3.9/lib-dynload/baz.so" ==
      basename (fsSame.readlink "/usr/lib64/python3.9/lib-dynload/baz.so")) = true ∧
    mapLibPath "/usr/lib64/python3.9/lib-dynload/baz.so" =
      .ok "lib64/python3.9/lib-dynload/baz.so" ∧
    copy_file_to_python_env fsSame st0 "/usr/lib64/python3.9/lib-dynload/baz.so" =
      .ok (fix_dynload fsSame st0 "/usr/lib64/python3.9/lib-dynload/baz.so"
            "lib64/python3.9/lib-dynload/baz.so") ∧
    copy_file_to_python_env fsSame st0 "/usr/lib64/python3.9/lib-dynload/baz.so" ≠
      .ok (pushEntry st0 "lib64/python3.9/lib-dynload/baz.so"
            (.addPath "/usr/lib64/python3.9/lib-dynload/baz.so" false)) :=
  ⟨rfl, rfl, rfl, rfl, rfl, rfl, by decide⟩

/-- C6: every entry package name is a member of the closure returned by the
resolver, whatever the query output (the entry list is appended back after
filtering, so this holds even for names matching the exclusion list). -/
theorem c6_entries_retained (queryOutput package_list : List String) (p : String)
    (hp : p ∈ package_list) : p ∈ dependencies queryOutput package_list := by
  unfold dependencies
  exact List.mem_append_right _ hp

/-- C6 witness: the entry package `filesystem` matches the exclusion list
and is still in the result. -/
theorem c6_witness :
    "filesystem" ∈ (["filesystem"] : List String) ∧
    filter_basic_packages "filesystem" = true ∧
    "filesystem" ∈ dependencies ["python3-libs"] ["filesystem"] :=
  ⟨by decide, by decide,
   c6_entries_retained ["python3-libs"] ["filesystem"] "filesystem" (by decide)⟩

/-- C7 counterexample: `dependencies` performs no deduplication, so a name
that is not filtered and appears twice in the query output appears twice in
the result. -/
theorem c7_counterexample :
    filter_basic_packages "python3-libs" = false ∧
    (dependencies ["python3-libs", "python3-libs"] ["python3"]).count "python3-libs" = 2 ∧
    ¬ (dependencies ["python3-libs", "python3-libs"] ["python3"]).Nodup := by
  refine ⟨rfl, rfl, by decide⟩

/-- C7 (amended): the resolver result is duplicate-free only under the extra
assumptions that the query output and the entry list are themselves
duplicate-free and disjoint; in general the filtered query output and the
entry list are concatenated without deduplication. -/
theorem c7_nodup_under_assumptions (queryOutput package_list : List String)
    (hq : queryOutput.Nodup) (hp : package_list.Nodup)
    (hdisj : ∀ p ∈ package_list, p ∉ queryOutput) :
    (dependencies queryOutput package_list).Nodup := by
  unfold dependencies
  refine List.Nodup.append (hq.filter _) hp ?_
  intro a ha hb
  exact hdisj a hb (List.mem_of_mem_filter ha)

/-- C7 witness for the amended statement. -/
theorem c7_witness : (dependencies ["python3-libs"] ["python3"]).Nodup :=
  c7_nodup_under_assumptions ["python3-libs"] ["python3"]
    (by decide) (by decide) (by decide)

/-- C8: the temporary patched copy made by `fix_binary` is still recorded as
existing after the file's processing completes — the script never removes
its `mkstemp` files, contradicting the claimed cleanup. -/
theorem c8_temp_file_survives :
    ∃ st2,
      copy_file_to_python_env fsPlain st0 "/usr/lib64/python3.9/lib-dynload/bar2.so" =
        .ok st2 ∧
      st2.temps = [(0, ⟨"/lib64/ld-2.31.so", "$ORIGIN/../../"⟩)] ∧
      st2.temps ≠ [] :=
  ⟨_, rfl, rfl, by decide⟩

end Scylla
